import Mathlib

/-!
Verification of the SIFT workspace importer pipeline
(`sift/workspace/importer.py`).

The Python module is shallowly embedded below.  Python dictionaries used
as dataset metadata records become functions from a key type to
`Option Value`; generator-based streaming imports become functions that
return the full finite list of yielded progress events (or an error);
exceptions become an `Except` error type.  The external collaborators
that are not part of the embedded module (the `PLATFORM` / `INSTRUMENT`
enums of `sift.common`, the `ABI_AHI_Guidebook` of
`sift.workspace.guidebook`, the `PugL1bTools` netCDF decoder of
`sift.workspace.goesr_pug`, and the numpy memmap cache allocator) are
modelled from the specification; each such definition carries a doc
comment saying so.
-/

set_option maxRecDepth 10000

/-- The `PLATFORM` enum of `sift.common` (modelled from the spec: the
canonical platform tags used by the importer module, plus the "unknown"
sentinel the spec prescribes for unrecognized tokens). -/
inductive PLATFORM
  | GOES_16
  | GOES_17
  | HIMAWARI_8
  | HIMAWARI_9
  | UNKNOWN
deriving DecidableEq, Repr

/-- The `INSTRUMENT` enum of `sift.common` (modelled from the spec, with
the "unknown" sentinel). -/
inductive INSTRUMENT
  | AHI
  | ABI
  | UNKNOWN
deriving DecidableEq, Repr

/-- The `KIND` enum of `sift.common` (only `IMAGE` is used by this
module). -/
inductive KIND
  | IMAGE
deriving DecidableEq, Repr

/-- The canonical metadata attribute vocabulary (`INFO` of
`sift.common`): every canonical key the importer module writes. -/
inductive INFO
  | PLATFORM
  | INSTRUMENT
  | BAND
  | SCHED_TIME
  | OBS_TIME
  | OBS_DURATION
  | SCENE
  | DATASET_NAME
  | DISPLAY_TIME
  | DISPLAY_NAME
  | COLORMAP
  | CLIM
  | UUID
  | KIND
  | ORIGIN_X
  | ORIGIN_Y
  | CELL_WIDTH
  | CELL_HEIGHT
  | PROJ
  | PATHNAME
  | SHAPE
  | STANDARD_NAME
  | UNITS
deriving DecidableEq, Repr

/-- Keys of a metadata dictionary: either a canonical `INFO` key or a
raw string key as found in the GeoTIFF tag dictionary. -/
inductive Key
  | k (i : INFO)
  | raw (s : String)
deriving DecidableEq, Repr

/-- A calendar timestamp, the embedding of Python `datetime.datetime`
values produced by `strptime`. -/
structure DateTime where
  year : Nat
  month : Nat
  day : Nat
  hour : Nat
  minute : Nat
  second : Nat
deriving DecidableEq, Repr

/-- Values stored in a metadata record. -/
inductive Value
  | s (x : String)
  | n (x : Nat)
  | i (x : Int)
  | q (x : Rat)
  | plat (p : PLATFORM)
  | inst (x : INSTRUMENT)
  | kind (x : KIND)
  | time (t : DateTime)
  | tdelta (endT startT : DateTime)
  | ints (xs : List Int)
  | strs (xs : List String)
  | pair (lo hi : Rat)
  | shape (rows cols : Nat)
deriving DecidableEq, Repr

/-- A dataset metadata record: the embedding of the Python metadata
dictionaries (absent key = `none`). -/
def Record : Type := Key → Option Value

/-- The empty dictionary. -/
def emptyRecord : Record := fun _ => none

/-- `d[key] = v` on a Python dictionary. -/
def updateKey (r : Record) (key : Key) (v : Value) : Record :=
  fun k' => if k' = key then some v else r k'

/-- `d.pop(key)` (the removal effect) on a Python dictionary. -/
def eraseKey (r : Record) (key : Key) : Record :=
  fun k' => if k' = key then none else r k'

/-- `d.update(other)`: keys of `other` win. -/
def dictUpdate (d other : Record) : Record :=
  fun k => match other k with
    | some v => some v
    | none => d k

/-- The raw GeoTIFF tag dictionary returned by `gtiff.GetMetadata()`:
all keys are raw strings, all values are strings. -/
def rawRecord (tags : List (String × String)) : Record :=
  fun k => match k with
    | Key.raw s => (tags.lookup s).map Value.s
    | Key.k _ => none

/-- Fold a list of key/value pairs into a record (`dict.update` with a
literal dictionary). -/
def updateKeys (r : Record) (kvs : List (Key × Value)) : Record :=
  kvs.foldl (fun acc kv => updateKey acc kv.1 kv.2) r

/-- Digits of an ASCII decimal numeral to a natural number (used after
the digit-hood of every character has been checked). -/
def digitsToNat (cs : List Char) : Nat :=
  cs.foldl (fun a c => a * 10 + (c.toNat - 48)) 0

/-- `pat` occurs at the head of `s` (character-list version of a string
match at the current position). -/
def leadsWith : List Char → List Char → Bool
  | [], _ => true
  | _ :: _, [] => false
  | p :: ps, c :: cs => p = c && leadsWith ps cs

/-- Python `pat in s` substring membership on character lists. -/
def hasSub : List Char → List Char → Bool
  | [], pat => pat.isEmpty
  | c :: cs, pat => leadsWith pat (c :: cs) || hasSub cs pat

/-- Python `s.endswith(pat)` on character lists. -/
def pyEndsWith (s pat : List Char) : Bool :=
  if pat.length ≤ s.length then
    decide (s.drop (s.length - pat.length) = pat)
  else false

/-- Python `s.lower().endswith(pat)`: lower-case the source (ASCII,
which covers every recognized suffix) and compare the suffix. -/
def pyLowerEndsWith (s pat : String) : Bool :=
  pyEndsWith (s.toList.map Char.toLower) pat.toList

/-- Split a character list at every occurrence of a separator
character (Python `s.split(sep)` for a one-character separator). -/
def splitOnChar (sep : Char) : List Char → List (List Char)
  | [] => [[]]
  | c :: t =>
    if c = sep then [] :: splitOnChar sep t
    else match splitOnChar sep t with
      | h :: r => (c :: h) :: r
      | [] => [[c]]

/-- Python `s.split(sep)` producing strings. -/
def pySplit (sep : Char) (s : String) : List String :=
  (splitOnChar sep s.toList).map String.mk

/-- `os.path.split(p)[1]`: the part of the path after the last slash. -/
def basename (p : String) : String :=
  String.mk ((p.toList.reverse.takeWhile (fun c => c ≠ '/')).reverse)

/-- Python `int(s)` for the comma-separated flag fields: optional sign
followed by at least one digit. -/
def pyInt (s : String) : Option Int :=
  let step : List Char → Bool → Option Int := fun ds neg =>
    if ds.isEmpty || !ds.all Char.isDigit then none
    else some (if neg then -(digitsToNat ds : Int) else (digitsToNat ds : Int))
  match s.toList with
  | '-' :: t => step t true
  | '+' :: t => step t false
  | t => step t false

/-- Python `float(s)` restricted to plain decimal numerals (optional
sign, integer part, optional fractional part); the exponent and
special-value spellings accepted by Python are not used by any source
tag this development evaluates. -/
def pyFloat (s : String) : Option Rat :=
  let core : List Char → Option Rat := fun cs =>
    let ip := cs.takeWhile Char.isDigit
    let rest := cs.drop ip.length
    match rest with
    | [] => if ip.isEmpty then none else some ((digitsToNat ip : Int) : Rat)
    | '.' :: fr =>
      let fp := fr.takeWhile Char.isDigit
      if !(fr.drop fp.length).isEmpty then none
      else if ip.isEmpty && fp.isEmpty then none
      else some ((digitsToNat ip : Rat) + (digitsToNat fp : Rat) / ((10 : Rat) ^ fp.length))
    | _ => none
  match s.toList with
  | '-' :: t => (core t).map (fun x => -x)
  | '+' :: t => core t
  | t => core t

/-- `"B%02d" % band` — the `"B" + zero-padded band number` dataset name
synthesized for band-bearing rasters. -/
def fmtB (b : Nat) : String :=
  "B" ++ (if b < 10 then "0" ++ toString b else toString b)

/-- Gregorian leap-year test (Python `datetime` calendar validation). -/
def isLeap (y : Nat) : Bool :=
  y % 4 = 0 && (y % 100 ≠ 0 || y % 400 = 0)

/-- Days in a month of the proleptic Gregorian calendar. -/
def daysInMonth (y m : Nat) : Nat :=
  if m = 2 then (if isLeap y then 29 else 28)
  else if m = 4 || m = 6 || m = 9 || m = 11 then 30
  else 31

/-- Calendar range validation performed by `datetime.strptime` before a
`datetime` is built (Python rejects year 0, month outside 1..12, day
outside the month, hour above 23, minute above 59, second above 61). -/
def validDateTime (t : DateTime) : Bool :=
  1 ≤ t.year && t.year ≤ 9999 &&
  1 ≤ t.month && t.month ≤ 12 &&
  1 ≤ t.day && t.day ≤ daysInMonth t.year t.month &&
  t.hour ≤ 23 && t.minute ≤ 59 && t.second ≤ 61

/-- `datetime.strptime(yyyymmdd + hhmm, "%Y%m%d%H%M")` applied to the
twelve digits captured from a legacy Himawari filename. -/
def strptime12 (cs : List Char) : Option DateTime :=
  if cs.length = 12 && cs.all Char.isDigit then
    let t : DateTime :=
      { year := digitsToNat (cs.take 4)
        month := digitsToNat ((cs.drop 4).take 2)
        day := digitsToNat ((cs.drop 6).take 2)
        hour := digitsToNat ((cs.drop 8).take 2)
        minute := digitsToNat ((cs.drop 10).take 2)
        second := 0 }
    if validDateTime t then some t else none
  else none

/-- Read exactly `n` decimal digits off the front of a character list. -/
def takeDigits (n : Nat) (cs : List Char) : Option (List Char × List Char) :=
  let t := cs.take n
  if t.length = n && t.all Char.isDigit then some (t, cs.drop n) else none

/-- Consume one expected literal character. -/
def expectChar (c : Char) : List Char → Option (List Char)
  | d :: rest => if d = c then some rest else none
  | [] => none

/-- `datetime.strptime(s, "%Y-%m-%dT%H:%M:%SZ")` — the ISO-like format
used for the `start_time` / `end_time` GeoTIFF tags. -/
def strptimeIso (s : String) : Option DateTime :=
  match takeDigits 4 s.toList with
  | none => none
  | some (yy, r1) =>
  match expectChar '-' r1 with
  | none => none
  | some r2 =>
  match takeDigits 2 r2 with
  | none => none
  | some (mo, r3) =>
  match expectChar '-' r3 with
  | none => none
  | some r4 =>
  match takeDigits 2 r4 with
  | none => none
  | some (dd, r5) =>
  match expectChar 'T' r5 with
  | none => none
  | some r6 =>
  match takeDigits 2 r6 with
  | none => none
  | some (hh, r7) =>
  match expectChar ':' r7 with
  | none => none
  | some r8 =>
  match takeDigits 2 r8 with
  | none => none
  | some (mi, r9) =>
  match expectChar ':' r9 with
  | none => none
  | some r10 =>
  match takeDigits 2 r10 with
  | none => none
  | some (ss, r11) =>
  match expectChar 'Z' r11 with
  | none => none
  | some r12 =>
  if !r12.isEmpty then none
  else
    let t : DateTime :=
      { year := digitsToNat yy, month := digitsToNat mo, day := digitsToNat dd
        hour := digitsToNat hh, minute := digitsToNat mi, second := digitsToNat ss }
    if validDateTime t then some t else none

/-- Modelled from the spec: the `PLATFORM` enum constructor
`PLATFORM(value)` of `sift.common` (not under `src/`): the exact enum
values, yielding `none` (Python `ValueError`) for any other string. -/
def platformEnum (s : String) : Option PLATFORM :=
  if s = "Himawari-8" then some PLATFORM.HIMAWARI_8
  else if s = "Himawari-9" then some PLATFORM.HIMAWARI_9
  else if s = "GOES-16" then some PLATFORM.GOES_16
  else if s = "GOES-17" then some PLATFORM.GOES_17
  else if s = "unknown" then some PLATFORM.UNKNOWN
  else none

/-- Modelled from the spec: `PLATFORM.from_value` of `sift.common` (not
under `src/`) — parse a raw platform token case-insensitively into the
canonical enum, yielding the "unknown" sentinel (not a failure) when
the token is unrecognized. -/
def PLATFORM.from_value (s : String) : PLATFORM :=
  let ls := String.mk (s.toList.map Char.toLower)
  if ls = "himawari-8" then PLATFORM.HIMAWARI_8
  else if ls = "himawari-9" then PLATFORM.HIMAWARI_9
  else if ls = "goes-16" then PLATFORM.GOES_16
  else if ls = "goes-17" then PLATFORM.GOES_17
  else PLATFORM.UNKNOWN

/-- Modelled from the spec: `INSTRUMENT.from_value` of `sift.common`
(not under `src/`), with the "unknown" sentinel for unrecognized
tokens. -/
def INSTRUMENT.from_value (s : String) : INSTRUMENT :=
  let ls := String.mk (s.toList.map Char.toLower)
  if ls = "ahi" then INSTRUMENT.AHI
  else if ls = "abi" then INSTRUMENT.ABI
  else INSTRUMENT.UNKNOWN

/-- The guidebook collaborator interface (`collect_info`,
`default_colormap`, `climits`, `_default_display_time`,
`_default_display_name`), exactly the calls `generate_guidebook_metadata`
makes. -/
structure Guidebook where
  collect_info : Record → List (Key × Value)
  default_colormap : Record → Value
  climits : Record → Value
  default_display_time : Record → Value
  default_display_name : Record → Value

/-- The band number of a record, when present. -/
def getBand (r : Record) : Option Nat :=
  match r (Key.k INFO.BAND) with
  | some (Value.n b) => some b
  | _ => none

/-- Modelled from the spec: the standard name the guidebook derives for
a band (reflectance for the visible/near-IR bands, brightness
temperature otherwise — the split hinted at by the module's own
commented-out workaround). -/
def stdNameFor : Option Nat → String
  | some b => if b ≤ 6 then "toa_bidirectional_reflectance" else "toa_brightness_temperature"
  | none => "unknown_standard_name"

/-- Modelled from the spec: the default colormap id the guidebook picks
for a band. -/
def cmapFor : Option Nat → String
  | some b => if b ≤ 6 then "grays" else "thermal"
  | none => "grays"

/-- Modelled from the spec: the default color limits the guidebook
picks for a band. -/
def climFor : Option Nat → Value
  | some b => if b ≤ 6 then Value.pair 0 100 else Value.pair 170 320
  | none => Value.pair 0 100

/-- Modelled from the spec: `ABI_AHI_Guidebook` of
`sift.workspace.guidebook` (not under `src/`) — per-platform/band
knowledge supplying display defaults: derived attributes and display
defaults are functions of the band, the default display time falls back
to the scheduled time, and the default display name falls back to the
dataset name. -/
def abiAhiGuidebook : Guidebook where
  collect_info := fun r => [(Key.k INFO.STANDARD_NAME, Value.s (stdNameFor (getBand r)))]
  default_colormap := fun r => Value.s (cmapFor (getBand r))
  climits := fun r => climFor (getBand r)
  default_display_time := fun r => (r (Key.k INFO.SCHED_TIME)).getD (Value.s "unknown")
  default_display_name := fun r => (r (Key.k INFO.DATASET_NAME)).getD (Value.s "unknown")

/-- The module-level `GUIDEBOOKS` dictionary: the four known platforms
all map to `ABI_AHI_Guidebook`; any other platform is a missing key. -/
def GUIDEBOOKS : PLATFORM → Option Guidebook
  | PLATFORM.GOES_16 => some abiAhiGuidebook
  | PLATFORM.GOES_17 => some abiAhiGuidebook
  | PLATFORM.HIMAWARI_8 => some abiAhiGuidebook
  | PLATFORM.HIMAWARI_9 => some abiAhiGuidebook
  | PLATFORM.UNKNOWN => none

/-- `get_guidebook_class(layer_info)`: look up
`GUIDEBOOKS[layer_info.get(INFO.PLATFORM)]`; a missing or unmapped
platform is a Python `KeyError`, embedded as `none`. -/
def get_guidebook_class (layer_info : Record) : Option Guidebook :=
  match layer_info (Key.k INFO.PLATFORM) with
  | some (Value.plat p) => GUIDEBOOKS p
  | _ => none

/-- `generate_guidebook_metadata(layer_info)`: merge the guidebook's
collected info, overwrite colormap and climits with the guidebook
defaults, and fill display time / display name only when absent.
`none` embeds the `KeyError` raised when no guidebook exists for the
record's platform. -/
def generate_guidebook_metadata (layer_info : Record) : Option Record :=
  match get_guidebook_class layer_info with
  | none => none
  | some gb =>
    let r1 := updateKeys layer_info (gb.collect_info layer_info)
    let r2 := updateKey r1 (Key.k INFO.COLORMAP) (gb.default_colormap r1)
    let r3 := updateKey r2 (Key.k INFO.CLIM) (gb.climits r2)
    let r4 := if r3 (Key.k INFO.DISPLAY_TIME) = none
      then updateKey r3 (Key.k INFO.DISPLAY_TIME) (gb.default_display_time r3) else r3
    let r5 := if r4 (Key.k INFO.DISPLAY_NAME) = none
      then updateKey r4 (Key.k INFO.DISPLAY_NAME) (gb.default_display_name r4) else r4
    some r5

/-- The exceptions the import pipeline can raise, named after the
spec's error taxonomy where one exists: `unsupportedSource` embeds the
`NotImplementedError` raised for URI sources, `keyError` the dictionary
lookup failure, `valueError` / `typeError` the Python parsing errors,
`indexError` a coordinate-vector index failure, `decodeError` an
external-decoder failure, and `cacheAllocationError` a failed cache
buffer allocation. -/
inductive ImportError
  | unsupportedSource
  | keyError
  | valueError
  | typeError
  | indexError
  | decodeError
  | cacheAllocationError
deriving DecidableEq, Repr

/-- The disk-backed cache buffer handle (`numpy.memmap`): fixed shape,
identified here by that shape. -/
structure CacheBuffer where
  rows : Nat
  cols : Nat
deriving DecidableEq, Repr

/-- The `import_progress` namedtuple yielded by streaming imports. -/
structure ProgressEvent where
  uuid : Nat
  stages : Nat
  current_stage : Nat
  completion : Rat
  stage_desc : String
  dataset_info : Option Record
  data : Option CacheBuffer

/-- The regular-expression match
`HS_H(dd)_(8 digits)_(4 digits)_B(dd)_(alnum run)` anchored at the start
of a legacy Himawari filename; returns the five capture groups. -/
def matchHs : List Char → Option (List Char × List Char × List Char × List Char × List Char)
  | 'H' :: 'S' :: '_' :: 'H' :: rest =>
    match takeDigits 2 rest with
    | none => none
    | some (g1, r1) =>
    match expectChar '_' r1 with
    | none => none
    | some r2 =>
    match takeDigits 8 r2 with
    | none => none
    | some (g2, r3) =>
    match expectChar '_' r3 with
    | none => none
    | some r4 =>
    match takeDigits 4 r4 with
    | none => none
    | some (g3, r5) =>
    match expectChar '_' r5 with
    | none => none
    | some r6 =>
    match expectChar 'B' r6 with
    | none => none
    | some r7 =>
    match takeDigits 2 r7 with
    | none => none
    | some (g4, r8) =>
    match expectChar '_' r8 with
    | none => none
    | some r9 =>
    let g5 := r9.takeWhile Char.isAlphanum
    if g5.isEmpty then none else some (g1, g2, g3, g4, g5)
  | _ => none

/-- `GeoTiffImporter._metadata_for_path`: derive platform, band,
instrument, times and scene from the legacy filename convention; no
match leaves the record empty; a matched filename whose date fails
`strptime` or whose platform number is not a known Himawari platform
raises (`ValueError`). -/
def metadata_for_path (pathname : Option String) : Except ImportError Record :=
  match pathname with
  | none => Except.ok emptyRecord
  | some pn =>
    if pn = "" then Except.ok emptyRecord
    else
      match matchHs (basename pn).toList with
      | none => Except.ok emptyRecord
      | some (g1, g2, g3, g4, g5) =>
        match strptime12 (g2 ++ g3) with
        | none => Except.error ImportError.valueError
        | some whenT =>
          match platformEnum ("Himawari-" ++ toString (digitsToNat g1)) with
          | none => Except.error ImportError.valueError
          | some plat =>
            Except.ok (updateKeys emptyRecord
              [(Key.k INFO.PLATFORM, Value.plat plat),
               (Key.k INFO.BAND, Value.n (digitsToNat g4)),
               (Key.k INFO.INSTRUMENT, Value.inst INSTRUMENT.AHI),
               (Key.k INFO.SCHED_TIME, Value.time whenT),
               (Key.k INFO.OBS_TIME, Value.time whenT),
               (Key.k INFO.SCENE, Value.s (String.mk g5))])

/-- `GeoTiffImporter._check_geotiff_metadata`: sanitize the raw GeoTIFF
tag dictionary into canonical keys, following the source line by line
(`name`, `platform`, `instrument`/`sensor`, `start_time`/`end_time`,
`valid_min`/`valid_max`, `standard_name`, `flag_values`, `flag_masks`,
`flag_meanings`, `units`). -/
def check_geotiff_metadata (tags : List (String × String)) : Except ImportError Record := do
  let m0 := rawRecord tags
  let m1 := match m0 (Key.raw "name") with
    | some v => updateKey (eraseKey m0 (Key.raw "name")) (Key.k INFO.DATASET_NAME) v
    | none => m0
  let m2 := match m1 (Key.raw "platform") with
    | some (Value.s p) =>
      updateKey (eraseKey m1 (Key.raw "platform")) (Key.k INFO.PLATFORM)
        (Value.plat (PLATFORM.from_value p))
    | some _ => m1
    | none => m1
  let m3 :=
    if (m2 (Key.raw "instrument")).isSome || (m2 (Key.raw "sensor")).isSome then
      let instVal := match m2 (Key.raw "sensor") with
        | some v => some v
        | none => m2 (Key.raw "instrument")
      let m' := eraseKey (eraseKey m2 (Key.raw "sensor")) (Key.raw "instrument")
      match instVal with
      | some (Value.s iv) =>
        updateKey m' (Key.k INFO.INSTRUMENT) (Value.inst (INSTRUMENT.from_value iv))
      | _ => m'
    else m2
  let m4 ← match m3 (Key.raw "start_time") with
    | some (Value.s st) =>
      match strptimeIso st with
      | none => throw ImportError.valueError
      | some t0 =>
        let ma := updateKey (updateKey m3 (Key.k INFO.SCHED_TIME) (Value.time t0))
          (Key.k INFO.OBS_TIME) (Value.time t0)
        match ma (Key.raw "end_time") with
        | some (Value.s et) =>
          match strptimeIso et with
          | none => throw ImportError.valueError
          | some t1 => pure (updateKey ma (Key.k INFO.OBS_DURATION) (Value.tdelta t1 t0))
        | _ => pure ma
    | _ => pure m3
  let m5 ← match m4 (Key.raw "valid_min") with
    | some (Value.s v) =>
      match pyFloat v with
      | none => throw ImportError.valueError
      | some x => pure (updateKey m4 (Key.raw "valid_min") (Value.q x))
    | _ => pure m4
  let m6 ← match m5 (Key.raw "valid_max") with
    | some (Value.s v) =>
      match pyFloat v with
      | none => throw ImportError.valueError
      | some x => pure (updateKey m5 (Key.raw "valid_max") (Value.q x))
    | _ => pure m5
  let m7 := match m6 (Key.raw "standard_name") with
    | some v => updateKey m6 (Key.k INFO.STANDARD_NAME) v
    | none => m6
  let m8 ← match m7 (Key.raw "flag_values") with
    | some (Value.s v) =>
      match (pySplit ',' v).mapM pyInt with
      | none => throw ImportError.valueError
      | some xs => pure (updateKey m7 (Key.raw "flag_values") (Value.ints xs))
    | _ => pure m7
  let m9 ← match m8 (Key.raw "flag_masks") with
    | some (Value.s v) =>
      match (pySplit ',' v).mapM pyInt with
      | none => throw ImportError.valueError
      | some xs => pure (updateKey m8 (Key.raw "flag_masks") (Value.ints xs))
    | _ => pure m8
  let m10 := match m9 (Key.raw "flag_meanings") with
    | some (Value.s v) => updateKey m9 (Key.raw "flag_meanings") (Value.strs (pySplit ' ' v))
    | _ => m9
  let m11 := match m10 (Key.raw "units") with
    | some v => updateKey (eraseKey m10 (Key.raw "units")) (Key.k INFO.UNITS) v
    | none => m10
  pure m11

/-- The anti-meridian wraparound marker checked for in the PROJ.4
string. -/
def overMarker : List Char := "+over".toList

/-- The anti-meridian correction of `GeoTiffImporter.get_metadata`:
append a wraparound marker when the inverse-projected right edge
longitude is numerically below the left edge longitude and the
projection string does not already contain the marker. -/
def fixProj (proj : String) (lonL lonR : Rat) : String :=
  if hasSub proj.toList overMarker = false ∧ lonR < lonL then proj ++ " +over"
  else proj

/-- The opened GeoTIFF decoder handle (`gdal.Open` result), carrying
exactly the values the importer reads off it: the affine geo-transform
entries used (`ox, cw, oy, ch`), the PROJ.4 string converted from the
spatial reference, the first band's dimensions and block size, the band
sample type name, the raw tag dictionary, and the external inverse
projection (pyproj) as an oracle from projected coordinates to
longitude. -/
structure GtiffFile where
  geoOx : Rat
  geoCw : Rat
  geoOy : Rat
  geoCh : Rat
  proj4 : String
  ySize : Nat
  xSize : Nat
  blockW : Nat
  blockH : Nat
  dataTypeName : String
  meta : List (String × String)
  invLon : Rat → Rat → Rat

/-- Python truthiness dispatch `source_path or source_uri` (an empty
string is falsy). -/
def sourceOf (source_path source_uri : Option String) : Option String :=
  match source_path with
  | some s => if s = "" then source_uri else some s
  | none => source_uri

/-- `GeoTiffImporter.is_relevant`: case-insensitive `.tif` / `.tiff`
suffix test on `source_path or source_uri`; `none` embeds the
`AttributeError` of calling `.lower()` on `None`. -/
def GeoTiffImporter.is_relevant (source_path source_uri : Option String) : Option Bool :=
  (sourceOf source_path source_uri).map fun source =>
    pyLowerEndsWith source ".tif" || pyLowerEndsWith source ".tiff"

/-- `GoesRPUGImporter.is_relevant`: case-insensitive `.nc` / `.nc4`
suffix test on `source_path or source_uri`. -/
def GoesRPUGImporter.is_relevant (source_path source_uri : Option String) : Option Bool :=
  (sourceOf source_path source_uri).map fun source =>
    pyLowerEndsWith source ".nc" || pyLowerEndsWith source ".nc4"

/-- `GeoTiffImporter.get_metadata`: refuse URI sources, derive filename
metadata, copy the geo-transform / projection / shape off the decoder,
synthesize the dataset name, apply the anti-meridian correction, merge
the sanitized embedded tags, and run guidebook enrichment (whose
missing-guidebook `KeyError` aborts the call). -/
def GeoTiffImporter.get_metadata (dest_uuid : Nat) (source_path source_uri : Option String)
    (g : GtiffFile) : Except ImportError Record := do
  if source_uri.isSome then throw ImportError.unsupportedSource
  let d0 ← metadata_for_path source_path
  let d1 := updateKeys d0
    [(Key.k INFO.UUID, Value.n dest_uuid),
     (Key.k INFO.KIND, Value.kind KIND.IMAGE),
     (Key.k INFO.ORIGIN_X, Value.q g.geoOx),
     (Key.k INFO.ORIGIN_Y, Value.q g.geoOy),
     (Key.k INFO.CELL_WIDTH, Value.q g.geoCw),
     (Key.k INFO.CELL_HEIGHT, Value.q g.geoCh),
     (Key.k INFO.PROJ, Value.s g.proj4)]
  let d2 ← match d1 (Key.k INFO.BAND), source_path with
    | some (Value.n b), _ => pure (updateKey d1 (Key.k INFO.DATASET_NAME) (Value.s (fmtB b)))
    | _, some p => pure (updateKey d1 (Key.k INFO.DATASET_NAME) (Value.s (basename p)))
    | _, none => throw ImportError.typeError
  let d3 := match source_path with
    | some p => updateKey d2 (Key.k INFO.PATHNAME) (Value.s p)
    | none => d2
  let rows := g.ySize
  let cols := g.xSize
  let d4 := updateKey d3 (Key.k INFO.SHAPE) (Value.shape rows cols)
  let lonL := g.invLon g.geoOx g.geoOy
  let lonR := g.invLon (g.geoOx + g.geoCw * (cols : Rat)) (g.geoOy + g.geoCh * (rows : Rat))
  let d5 := updateKey d4 (Key.k INFO.PROJ) (Value.s (fixProj g.proj4 lonL lonR))
  let gm ← check_geotiff_metadata g.meta
  let d6 := dictUpdate d5 gm
  match generate_guidebook_metadata d6 with
  | none => throw ImportError.keyError
  | some d7 => pure d7

/-- `int(np.ceil(512.0 / blockh))` for a positive block height: the
exact ceiling division. -/
def natCeilDiv (a b : Nat) : Nat := (a + b - 1) / b

/-- The row loop of `GeoTiffImporter.__call__`: starting from `irow`,
while `irow < rows`, write one increment of rows and yield a progress
event whose completion is the exact value of the float division
`irow / rows` computed after `irow += increment`, embedded as the
rational `mkRat (irow + increment) rows`.  The `fuel` argument
bounds the iteration count (the caller passes `rows`, which dominates
the number of iterations whenever the increment is positive, as it is
for every positive block height). -/
def geoTiffLoopEvents (dest_uuid rows cols increment : Nat) : Nat → Nat → List ProgressEvent
  | _, 0 => []
  | irow, fuel + 1 =>
    if irow < rows then
      { uuid := dest_uuid
        stages := 1
        current_stage := 0
        completion := mkRat ((irow + increment : Nat) : Int) rows
        stage_desc := "importing geotiff"
        dataset_info := none
        data := some { rows := rows, cols := cols } }
        :: geoTiffLoopEvents dest_uuid rows cols increment (irow + increment) fuel
    else []

/-- `GeoTiffImporter.__call__`: refuse URI sources, allocate the cache
buffer (modelled from the spec: the external cache storage collaborator
— `open` plus `numpy.memmap` — fails with a cache-allocation error when
either dimension of the requested shape is zero, since a zero-byte
mapping cannot be created), then stream the row loop events followed by
the terminal event with completion exactly 1. -/
def GeoTiffImporter.call (dest_uuid : Nat) (source_path source_uri : Option String)
    ( _cache_path : Option String) (g : GtiffFile) : Except ImportError (List ProgressEvent) :=
  if source_uri.isSome then Except.error ImportError.unsupportedSource
  else
    let rows := g.ySize
    let cols := g.xSize
    if rows = 0 ∨ cols = 0 then Except.error ImportError.cacheAllocationError
    else
      let increment := min (g.blockH * natCeilDiv 512 g.blockH) 2048
      Except.ok (geoTiffLoopEvents dest_uuid rows cols increment 0 rows ++
        [{ uuid := dest_uuid
           stages := 1
           current_stage := 0
           completion := 1
           stage_desc := "done loading geotiff"
           dataset_info := none
           data := some { rows := rows, cols := cols } }])

/-- The opened PUG netCDF decoder handle (`PugL1bTools`), carrying the
attributes `GoesRPUGImporter` reads off it. -/
structure Pug where
  platform_id : String
  band : Nat
  sched_time : DateTime
  display_time : String
  scene_id : String
  display_name : String
  proj4_string : String
  projY : List Rat
  projX : List Rat
  rows : Nat
  cols : Nat

/-- The module-level `PLATFORM_ID_TO_PLATFORM` dictionary mapping PUG
platform ids to the platform enum; a missing id is a `KeyError`. -/
def PLATFORM_ID_TO_PLATFORM (s : String) : Option PLATFORM :=
  if s = "G16" then some PLATFORM.GOES_16
  else if s = "G17" then some PLATFORM.GOES_17
  else if s = "Himawari-8" then some PLATFORM.HIMAWARI_8
  else if s = "Himawari-9" then some PLATFORM.HIMAWARI_9
  else none

/-- `GoesRPUGImporter.get_metadata`: refuse URI sources, open the PUG
decoder, map the platform id, build the canonical record (origin from
the first coordinate samples, cell size from the two samples adjacent
to the image center), and run guidebook enrichment. -/
def GoesRPUGImporter.get_metadata (dest_uuid : Nat) (source_path source_uri : Option String)
    (openPug : Option String → Except ImportError Pug) : Except ImportError Record := do
  if source_uri.isSome then throw ImportError.unsupportedSource
  let pug ← openPug source_path
  let plat ← match PLATFORM_ID_TO_PLATFORM pug.platform_id with
    | some p => pure p
    | none => throw ImportError.keyError
  let pn ← match source_path with
    | some p => pure p
    | none => throw ImportError.typeError
  let ox ← match pug.projX.get? 0 with
    | some x => pure x
    | none => throw ImportError.indexError
  let oy ← match pug.projY.get? 0 with
    | some y => pure y
    | none => throw ImportError.indexError
  let midyi := pug.projY.length / 2
  let midxi := pug.projX.length / 2
  let cw ← match pug.projX.get? (midxi + 1), pug.projX.get? midxi with
    | some a, some b => pure (a - b)
    | _, _ => throw ImportError.indexError
  let ch ← match pug.projY.get? (midyi + 1), pug.projY.get? midyi with
    | some a, some b => pure (a - b)
    | _, _ => throw ImportError.indexError
  let d := updateKeys emptyRecord
    [(Key.k INFO.PLATFORM, Value.plat plat),
     (Key.k INFO.BAND, Value.n pug.band),
     (Key.k INFO.INSTRUMENT, Value.inst INSTRUMENT.ABI),
     (Key.k INFO.SCHED_TIME, Value.time pug.sched_time),
     (Key.k INFO.DISPLAY_TIME, Value.s pug.display_time),
     (Key.k INFO.SCENE, Value.s pug.scene_id),
     (Key.k INFO.DISPLAY_NAME, Value.s pug.display_name),
     (Key.k INFO.UUID, Value.n dest_uuid),
     (Key.k INFO.DATASET_NAME, Value.s (basename pn)),
     (Key.k INFO.PATHNAME, Value.s pn),
     (Key.k INFO.KIND, Value.kind KIND.IMAGE),
     (Key.k INFO.PROJ, Value.s pug.proj4_string),
     (Key.k INFO.ORIGIN_X, Value.q ox),
     (Key.k INFO.ORIGIN_Y, Value.q oy),
     (Key.k INFO.CELL_WIDTH, Value.q cw),
     (Key.k INFO.CELL_HEIGHT, Value.q ch),
     (Key.k INFO.SHAPE, Value.shape pug.rows pug.cols)]
  match generate_guidebook_metadata d with
  | none => throw ImportError.keyError
  | some d' => pure d'

/-- `GoesRPUGImporter.__call__`: open the PUG decoder on `source_path`
— the source performs no URI check here, unlike the other three entry
points — convert the radiances, allocate the cache buffer (modelled
from the spec as for the GeoTIFF variant: a zero-sized shape fails the
allocation), and yield the single terminal event. -/
def GoesRPUGImporter.call (dest_uuid : Nat) (source_path source_uri : Option String)
    ( _cache_path : Option String) (openPug : Option String → Except ImportError Pug) :
    Except ImportError (List ProgressEvent) :=
  match openPug source_path with
  | Except.error e => Except.error e
  | Except.ok pug =>
    if pug.rows = 0 ∨ pug.cols = 0 then Except.error ImportError.cacheAllocationError
    else Except.ok
      [{ uuid := dest_uuid
         stages := 1
         current_stage := 0
         completion := 1
         stage_desc := "GOES PUG data add to workspace"
         dataset_info := none
         data := some { rows := pug.rows, cols := pug.cols } }]

/-- A concrete PUG decoder handle used by the closed evaluations. -/
def pugFixture : Pug where
  platform_id := "G16"
  band := 2
  sched_time := { year := 2017, month := 6, day := 1, hour := 12, minute := 0, second := 0 }
  display_time := "2017-06-01 12:00"
  scene_id := "FD"
  display_name := "ABI B02"
  proj4_string := "+proj=geos +h=35786023"
  projY := [10, 8, 6, 4]
  projX := [1, 3, 5, 7]
  rows := 4
  cols := 4

/-- A decoder handle whose raster shape has zero rows. -/
def pugZero : Pug := { pugFixture with rows := 0 }

/-- Modelled from the spec: opening the external `PugL1bTools` decoder
on a source argument (`sift.workspace.goesr_pug`, not under `src/`).  A
null source (the `None` path passed when only a URI was supplied)
cannot be opened and fails with a decode error; a named local source
opens normally and is represented by the fixed decoder handle above. -/
def pugOpenNullFails : Option String → Except ImportError Pug
  | none => Except.error ImportError.decodeError
  | some _ => Except.ok pugFixture

/-- The yielded event list of a streaming import, empty when the import
raised before yielding. -/
def eventsOf : Except ImportError (List ProgressEvent) → List ProgressEvent
  | Except.ok evs => evs
  | Except.error _ => []

/-- The completion values of a streaming import's events, in order. -/
def completionsOf (x : Except ImportError (List ProgressEvent)) : List Rat :=
  (eventsOf x).map ProgressEvent.completion

/-- Whether each yielded event carries a non-null buffer handle. -/
def dataFlags (x : Except ImportError (List ProgressEvent)) : List Bool :=
  (eventsOf x).map (fun e => e.data.isSome)

/-- Whether each yielded event carries a null dataset record. -/
def nullInfoFlags (x : Except ImportError (List ProgressEvent)) : List Bool :=
  (eventsOf x).map (fun e => e.dataset_info.isNone)

/-- A list of rationals is monotonically non-decreasing. -/
def nonDecreasing : List Rat → Bool
  | [] => true
  | [_] => true
  | a :: b :: t => a ≤ b && nonDecreasing (b :: t)

/-- The record produced by a successful metadata extraction (empty on
error). -/
def recOf : Except ImportError Record → Record
  | Except.ok m => m
  | Except.error _ => emptyRecord

/-- A concrete GeoTIFF decoder handle used by the closed evaluations:
the geo-transform and projection are arbitrary fixed values, and the
inverse projection maps everything to longitude zero, so the
anti-meridian condition does not trigger. -/
def gFixture (rows cols blockH : Nat) (meta : List (String × String)) : GtiffFile where
  geoOx := 0
  geoCw := 1
  geoOy := 0
  geoCh := -1
  proj4 := "+proj=eqc"
  ySize := rows
  xSize := cols
  blockW := cols
  blockH := blockH
  dataTypeName := "Float32"
  meta := meta
  invLon := fun _ _ => 0

/-- A 100-row, 1-column, block-height-1 GeoTIFF: 100 is not a multiple
of the resulting 512-row increment. -/
def g100 : GtiffFile := gFixture 100 1 1 []

/-- A 1024-row GeoTIFF with 512-row blocks: the streaming import yields
two loop events before the terminal event. -/
def g1024 : GtiffFile := gFixture 1024 1 512 []

/-- A GeoTIFF whose embedded platform tag is not a recognized token. -/
def g3 : GtiffFile := gFixture 5 5 1 [("platform", "EWS-G1")]

/-- A tagless GeoTIFF behind a legacy Himawari filename. -/
def g8 : GtiffFile := gFixture 5 5 1 []

/-- A metadata record holding only a resolvable platform tag. -/
def c7r0 : Record := fun k =>
  if k = Key.k INFO.PLATFORM then some (Value.plat PLATFORM.HIMAWARI_8) else none

/-- The enrichment of `c7r0`. -/
def c7r1 : Record := (generate_guidebook_metadata c7r0).getD emptyRecord

/-- The record extracted from the legacy Himawari filename fixture. -/
def c8rec : Record :=
  recOf (GeoTiffImporter.get_metadata 0 (some "HS_H08_20170101_0000_B03_FLDK.tif") none g8)

/-- The spec's reading of "ends case-insensitively with `pat`": some
suffix of the source, once lower-cased, is exactly `pat`. -/
def endsWithCaseInsensitive (s pat : String) : Prop :=
  ∃ t u : List Char, s.toList = t ++ u ∧ u.map Char.toLower = pat.toList

/-- The timestamp recovered from the fixture filename. -/
def t2017 : DateTime :=
  { year := 2017, month := 1, day := 1, hour := 0, minute := 0, second := 0 }

/-- The enrichment chain of `generate_guidebook_metadata` specialized
to the one registered guidebook (every platform in `GUIDEBOOKS` maps to
`ABI_AHI_Guidebook`): merge the collected standard name, overwrite
colormap and climits, fill display time / display name when absent. -/
def enrichChain (r : Record) : Record :=
  let r1 := updateKey r (Key.k INFO.STANDARD_NAME) (Value.s (stdNameFor (getBand r)))
  let r2 := updateKey r1 (Key.k INFO.COLORMAP) (Value.s (cmapFor (getBand r1)))
  let r3 := updateKey r2 (Key.k INFO.CLIM) (climFor (getBand r2))
  let r4 := if r3 (Key.k INFO.DISPLAY_TIME) = none
    then updateKey r3 (Key.k INFO.DISPLAY_TIME)
      ((r3 (Key.k INFO.SCHED_TIME)).getD (Value.s "unknown"))
    else r3
  let r5 := if r4 (Key.k INFO.DISPLAY_NAME) = none
    then updateKey r4 (Key.k INFO.DISPLAY_NAME)
      ((r4 (Key.k INFO.DATASET_NAME)).getD (Value.s "unknown"))
    else r4
  r5

/-- Looking a key up right after setting it. -/
@[simp] theorem updateKey_apply_eq (r : Record) (key : Key) (v : Value) :
    updateKey r key v key = some v := by
  simp [updateKey]

/-- Looking a different key up after setting one. -/
theorem updateKey_apply_ne (r : Record) (key : Key) (v : Value) {k' : Key} (h : k' ≠ key) :
    updateKey r key v k' = r k' := by
  simp [updateKey, h]

/-- Re-setting a key to the value it already holds changes nothing. -/
theorem updateKey_self (r : Record) (key : Key) (v : Value) (h : r key = some v) :
    updateKey r key v = r := by
  funext k'
  by_cases hk : k' = key
  · subst hk; simp [updateKey, h]
  · simp [updateKey, hk]

/-- Substring membership survives prepending characters on the left. -/
theorem hasSub_append_left (xs ys pat : List Char) (h : hasSub ys pat = true) :
    hasSub (xs ++ ys) pat = true := by
  induction xs with
  | nil => simpa using h
  | cons c cs ih => simp [hasSub, ih]

/-- Appending the wraparound marker makes the marker a substring. -/
theorem hasSub_append_marker (p : String) :
    hasSub (p ++ " +over").toList overMarker = true := by
  have hd : (p ++ " +over").toList = p.toList ++ " +over".toList := by
    simp [String.toList, String.data_append]
  rw [hd]
  exact hasSub_append_left _ _ _ (by decide)

/-- C4: for a raster whose inverse-projected right edge longitude is
numerically below its left edge longitude and whose projection string
does not yet contain the wraparound marker, the correction appends the
marker exactly once, the corrected string contains the marker, and
re-running the correction (on any string, with the same longitudes)
changes nothing. -/
theorem proj_over_append_once_idempotent (p : String) (lonL lonR : Rat)
    (h1 : hasSub p.toList overMarker = false) (h2 : lonR < lonL) :
    fixProj p lonL lonR = p ++ " +over" ∧
    hasSub (fixProj p lonL lonR).toList overMarker = true ∧
    (∀ w : String, ∀ l r : Rat, fixProj (fixProj w l r) l r = fixProj w l r) := by
  have happ : fixProj p lonL lonR = p ++ " +over" := by
    simp only [fixProj]
    rw [if_pos ⟨h1, h2⟩]
  refine ⟨happ, ?_, ?_⟩
  · rw [happ]; exact hasSub_append_marker p
  · intro w l r
    by_cases hc : hasSub w.toList overMarker = false ∧ r < l
    · have hw : fixProj w l r = w ++ " +over" := by
        simp only [fixProj]; rw [if_pos hc]
      rw [hw]
      simp only [fixProj]
      rw [if_neg]
      intro hcon
      rw [hasSub_append_marker w] at hcon
      exact absurd hcon.1 (by simp)
    · have hw : fixProj w l r = w := by
        simp only [fixProj]; rw [if_neg hc]
      rw [hw]
      simp only [fixProj]; rw [if_neg hc]

/-- Witness for C4 at a concrete projection string and longitudes. -/
theorem proj_over_append_once_idempotent_witness :
    fixProj "+proj=merc" 10 (-10) = "+proj=merc +over" ∧
    fixProj (fixProj "+proj=merc" 10 (-10)) 10 (-10) = fixProj "+proj=merc" 10 (-10) := by
  have h := proj_over_append_once_idempotent "+proj=merc" 10 (-10) (by decide) (by decide)
  exact ⟨h.1, h.2.2 "+proj=merc" 10 (-10)⟩

/-- C1 (code bug): on a 100-row raster whose effective increment is 512
rows, the streaming import's completion sequence is `[512/100, 1]` —
the loop event reports a completion above `1` (contradicting the
namedtuple's own stated `0..1` range) and the sequence then falls back
to the terminal `1.0`, so it is not monotonically non-decreasing, even
though the final event's completion is exactly `1`. -/
theorem geotiff_stream_completion_overshoot :
    completionsOf (GeoTiffImporter.call 0 (some "p.tif") none none g100) =
      [mkRat 512 100, 1] ∧
    nonDecreasing (completionsOf (GeoTiffImporter.call 0 (some "p.tif") none none g100)) =
      false ∧
    (1 : Rat) < mkRat 512 100 ∧
    (completionsOf (GeoTiffImporter.call 0 (some "p.tif") none none g100)).getLastD 0 = 1 := by
  refine ⟨by decide, by decide, by decide, by decide⟩

/-- C2 (counterexample): on a 1024-row raster with 512-row blocks the
streaming import yields three events and every one of them — the two
intermediate loop events included — carries a non-null buffer handle,
so it is false that every intermediate event carries a null handle and
that exactly one event carries the handle. -/
theorem geotiff_intermediate_events_carry_buffer :
    dataFlags (GeoTiffImporter.call 0 (some "p.tif") none none g1024) =
      [true, true, true] ∧
    nullInfoFlags (GeoTiffImporter.call 0 (some "p.tif") none none g1024) =
      [true, true, true] := by
  refine ⟨by decide, by decide⟩

/-- C3 (code bug): a GeoTIFF whose embedded platform tag is the
unrecognized token "EWS-G1" is sanitized to the "unknown" platform
sentinel without failing, but the full metadata extraction then aborts
with the `KeyError` raised inside guidebook enrichment, because the
guidebook registry has no entry for the unknown platform — ingestion
does not complete normally. -/
theorem unknown_platform_tag_enrichment_keyerror :
    (recOf (check_geotiff_metadata [("platform", "EWS-G1")])) (Key.k INFO.PLATFORM) =
      some (Value.plat PLATFORM.UNKNOWN) ∧
    GUIDEBOOKS PLATFORM.UNKNOWN = none ∧
    GeoTiffImporter.get_metadata 0 (some "foo.tif") none g3 =
      Except.error ImportError.keyError := by
  refine ⟨by decide, rfl, rfl⟩

/-- C8: for a raster-tag source with base filename
`HS_H08_20170101_0000_B03_FLDK.tif` and no embedded tags, metadata
extraction recovers platform Himawari-8, band 3, scheduled and observed
time 2017-01-01T00:00, and dataset/display name "B03". -/
theorem himawari_filename_metadata :
    c8rec (Key.k INFO.PLATFORM) = some (Value.plat PLATFORM.HIMAWARI_8) ∧
    c8rec (Key.k INFO.BAND) = some (Value.n 3) ∧
    c8rec (Key.k INFO.SCHED_TIME) = some (Value.time t2017) ∧
    c8rec (Key.k INFO.OBS_TIME) = some (Value.time t2017) ∧
    c8rec (Key.k INFO.DATASET_NAME) = some (Value.s "B03") ∧
    c8rec (Key.k INFO.DISPLAY_NAME) = some (Value.s "B03") := by
  refine ⟨by decide, by decide, by decide, by decide, by decide, by decide⟩

/-- C5 (amended): for every URI-based source (URI given, no local
path), both variants' metadata extraction and the raster-tag variant's
streaming import fail with the unsupported-source error before
attempting the import. -/
theorem uri_sources_unsupported_where_checked (dest_uuid : Nat) (u : String)
    (cp : Option String) (g : GtiffFile)
    (openPug : Option String → Except ImportError Pug) :
    GeoTiffImporter.get_metadata dest_uuid none (some u) g =
      Except.error ImportError.unsupportedSource ∧
    GeoTiffImporter.call dest_uuid none (some u) cp g =
      Except.error ImportError.unsupportedSource ∧
    GoesRPUGImporter.get_metadata dest_uuid none (some u) openPug =
      Except.error ImportError.unsupportedSource := by
  refine ⟨rfl, rfl, rfl⟩

/-- C5 (counterexample): the scientific-container variant's streaming
entry point performs no URI check — invoked with a URI and no local path it
hands the null path straight to the decoder and fails with a decode
error, not with the unsupported-source error the claim requires. -/
theorem goesr_stream_uri_decode_error :
    GoesRPUGImporter.call 7 none (some "http://host/a.nc") none pugOpenNullFails =
      Except.error ImportError.decodeError ∧
    ImportError.decodeError ≠ ImportError.unsupportedSource := by
  exact ⟨rfl, by decide⟩

/-- C9: requesting a cache buffer for a shape with zero rows or zero
columns makes the streaming import of either variant fail with the
cache-allocation error instead of yielding any event. -/
theorem zero_shape_cache_allocation_error (dest_uuid : Nat) (p : String)
    (cp : Option String) (g : GtiffFile)
    (openPug : Option String → Except ImportError Pug) (pug : Pug)
    (hg : g.ySize = 0 ∨ g.xSize = 0)
    (hp : openPug (some p) = Except.ok pug)
    (hpz : pug.rows = 0 ∨ pug.cols = 0) :
    GeoTiffImporter.call dest_uuid (some p) none cp g =
      Except.error ImportError.cacheAllocationError ∧
    GoesRPUGImporter.call dest_uuid (some p) none cp openPug =
      Except.error ImportError.cacheAllocationError := by
  constructor
  · simp only [GeoTiffImporter.call, Option.isSome_none, Bool.false_eq_true, if_false]
    rw [if_pos hg]
  · simp only [GoesRPUGImporter.call, hp]
    rw [if_pos hpz]

/-- Witness for C9 at a zero-row GeoTIFF and a zero-row PUG handle. -/
theorem zero_shape_cache_allocation_error_witness :
    GeoTiffImporter.call 0 (some "z.tif") none none (gFixture 0 5 1 []) =
      Except.error ImportError.cacheAllocationError ∧
    GoesRPUGImporter.call 0 (some "z.nc") none none (fun _ => Except.ok pugZero) =
      Except.error ImportError.cacheAllocationError :=
  zero_shape_cache_allocation_error 0 "z.nc" none (gFixture 0 5 1 [])
    (fun _ => Except.ok pugZero) pugZero (Or.inl rfl) rfl (Or.inl rfl)

/-- C10: a successful streaming import by the scientific-container
variant yields exactly one event, and that event has completion 1, a
null dataset record, and carries the buffer handle. -/
theorem goesr_stream_single_terminal_event (dest_uuid : Nat)
    (sp su cp : Option String) (openPug : Option String → Except ImportError Pug)
    (pug : Pug) (hp : openPug sp = Except.ok pug)
    (hr : pug.rows ≠ 0) (hc : pug.cols ≠ 0) :
    GoesRPUGImporter.call dest_uuid sp su cp openPug = Except.ok
      [{ uuid := dest_uuid
         stages := 1
         current_stage := 0
         completion := 1
         stage_desc := "GOES PUG data add to workspace"
         dataset_info := none
         data := some { rows := pug.rows, cols := pug.cols } }] := by
  simp only [GoesRPUGImporter.call, hp]
  rw [if_neg (by simp [hr, hc])]

/-- Witness for C10 at the concrete PUG decoder fixture. -/
theorem goesr_stream_single_terminal_event_witness :
    GoesRPUGImporter.call 7 (some "a.nc") none none pugOpenNullFails = Except.ok
      [{ uuid := 7
         stages := 1
         current_stage := 0
         completion := 1
         stage_desc := "GOES PUG data add to workspace"
         dataset_info := none
         data := some { rows := pugFixture.rows, cols := pugFixture.cols } }] :=
  goesr_stream_single_terminal_event 7 (some "a.nc") none none pugOpenNullFails
    pugFixture rfl (by decide) (by decide)

/-- Every event produced by the GeoTIFF row loop carries a null dataset
record and the (non-null) cache buffer handle. -/
theorem geoTiffLoopEvents_fields (dest_uuid rows cols increment : Nat) :
    ∀ fuel irow ev, ev ∈ geoTiffLoopEvents dest_uuid rows cols increment irow fuel →
      ev.dataset_info = none ∧ ev.data = some { rows := rows, cols := cols } := by
  intro fuel
  induction fuel with
  | zero => intro irow ev h; simp [geoTiffLoopEvents] at h
  | succ n ih =>
    intro irow ev h
    simp only [geoTiffLoopEvents] at h
    by_cases hr : irow < rows
    · rw [if_pos hr] at h
      rcases List.mem_cons.mp h with h1 | h2
      · subst h1; exact ⟨rfl, rfl⟩
      · exact ih _ _ h2
    · rw [if_neg hr] at h; simp at h

/-- Every event yielded by the GeoTIFF streaming import carries a null
dataset record and the cache buffer handle. -/
theorem geoTiffCall_events_fields (dest_uuid : Nat) (sp su cp : Option String)
    (g : GtiffFile) :
    ∀ ev ∈ eventsOf (GeoTiffImporter.call dest_uuid sp su cp g),
      ev.dataset_info = none ∧ ev.data = some { rows := g.ySize, cols := g.xSize } := by
  intro ev h
  simp only [GeoTiffImporter.call] at h
  by_cases hsu : su.isSome = true
  · rw [if_pos hsu] at h; simp [eventsOf] at h
  · rw [if_neg hsu] at h
    by_cases hz : g.ySize = 0 ∨ g.xSize = 0
    · rw [if_pos hz] at h; simp [eventsOf] at h
    · rw [if_neg hz] at h
      simp only [eventsOf] at h
      rcases List.mem_append.mp h with h1 | h2
      · exact geoTiffLoopEvents_fields _ _ _ _ _ _ _ h1
      · rw [List.mem_singleton] at h2; subst h2; exact ⟨rfl, rfl⟩

/-- Every event yielded by the PUG streaming import carries a null
dataset record and the cache buffer handle. -/
theorem goesRPugCall_events_fields (dest_uuid : Nat) (sp su cp : Option String)
    (openPug : Option String → Except ImportError Pug) :
    ∀ ev ∈ eventsOf (GoesRPUGImporter.call dest_uuid sp su cp openPug),
      ev.dataset_info = none ∧ ev.data ≠ none := by
  intro ev h
  simp only [GoesRPUGImporter.call] at h
  split at h
  · simp [eventsOf] at h
  · split at h
    · simp [eventsOf] at h
    · simp only [eventsOf] at h
      rw [List.mem_singleton] at h
      subst h
      exact ⟨rfl, by simp⟩

/-- C2 (amended): in every streaming import of either variant, every
yielded event — intermediate and final alike — carries a null dataset
record and a non-null buffer handle; in particular the final event
carries the buffer handle. -/
theorem stream_events_null_record_nonnull_data (dest_uuid : Nat)
    (sp su cp : Option String) (g : GtiffFile)
    (openPug : Option String → Except ImportError Pug) (i j : Nat)
    (hi : i < (eventsOf (GeoTiffImporter.call dest_uuid sp su cp g)).length)
    (hj : j < (eventsOf (GoesRPUGImporter.call dest_uuid sp su cp openPug)).length) :
    (((eventsOf (GeoTiffImporter.call dest_uuid sp su cp g)).get ⟨i, hi⟩).dataset_info =
        none ∧
      ((eventsOf (GeoTiffImporter.call dest_uuid sp su cp g)).get ⟨i, hi⟩).data ≠ none) ∧
    (((eventsOf (GoesRPUGImporter.call dest_uuid sp su cp openPug)).get ⟨j, hj⟩).dataset_info =
        none ∧
      ((eventsOf (GoesRPUGImporter.call dest_uuid sp su cp openPug)).get ⟨j, hj⟩).data ≠
        none) := by
  constructor
  · have hm := List.get_mem (eventsOf (GeoTiffImporter.call dest_uuid sp su cp g)) i hi
    have hf := geoTiffCall_events_fields dest_uuid sp su cp g _ hm
    exact ⟨hf.1, by rw [hf.2]; simp⟩
  · have hm := List.get_mem (eventsOf (GoesRPUGImporter.call dest_uuid sp su cp openPug)) j hj
    exact goesRPugCall_events_fields dest_uuid sp su cp openPug _ hm

/-- Witness for C2's amended theorem at the first event of a concrete
GeoTIFF import and the event of a concrete PUG import. -/
theorem stream_events_null_record_nonnull_data_witness :
    (((eventsOf (GeoTiffImporter.call 0 (some "p.tif") none none g1024)).get
        ⟨0, by decide⟩).dataset_info = none ∧
      ((eventsOf (GeoTiffImporter.call 0 (some "p.tif") none none g1024)).get
        ⟨0, by decide⟩).data ≠ none) ∧
    (((eventsOf (GoesRPUGImporter.call 0 (some "p.tif") none none pugOpenNullFails)).get
        ⟨0, by decide⟩).dataset_info = none ∧
      ((eventsOf (GoesRPUGImporter.call 0 (some "p.tif") none none pugOpenNullFails)).get
        ⟨0, by decide⟩).data ≠ none) :=
  stream_events_null_record_nonnull_data 0 (some "p.tif") none none g1024
    pugOpenNullFails 0 0 (by decide) (by decide)

/-- The endswith test holds exactly when the pattern is a suffix. -/
theorem pyEndsWith_iff (l pat : List Char) :
    pyEndsWith l pat = true ↔ ∃ t, l = t ++ pat := by
  constructor
  · intro h
    unfold pyEndsWith at h
    by_cases hle : pat.length ≤ l.length
    · rw [if_pos hle] at h
      have hd := of_decide_eq_true h
      refine ⟨l.take (l.length - pat.length), ?_⟩
      conv_lhs => rw [← List.take_append_drop (l.length - pat.length) l]
      rw [hd]
    · rw [if_neg hle] at h
      exact absurd h (by simp)
  · rintro ⟨t, rfl⟩
    unfold pyEndsWith
    have hle : pat.length ≤ (t ++ pat).length := by simp
    rw [if_pos hle]
    have hlen : (t ++ pat).length - pat.length = t.length := by simp
    rw [hlen, List.drop_left]
    exact decide_eq_true rfl

/-- A pattern is a suffix of a mapped list exactly when some suffix of
the original list maps onto the pattern. -/
theorem map_suffix_iff (f : Char → Char) (s pat : List Char) :
    (∃ t, s.map f = t ++ pat) ↔ ∃ t u, s = t ++ u ∧ u.map f = pat := by
  constructor
  · rintro ⟨t, ht⟩
    refine ⟨s.take t.length, s.drop t.length, (List.take_append_drop _ s).symm, ?_⟩
    have hmd : (s.drop t.length).map f = (s.map f).drop t.length := by
      rw [List.map_drop]
    rw [hmd, ht, List.drop_left]
  · rintro ⟨t, u, rfl, hu⟩
    exact ⟨t.map f, by simp [hu]⟩

/-- The lowered endswith test coincides with the spec's reading of
"ends case-insensitively with". -/
theorem pyLowerEndsWith_iff (s pat : String) :
    pyLowerEndsWith s pat = true ↔ endsWithCaseInsensitive s pat := by
  unfold pyLowerEndsWith endsWithCaseInsensitive
  rw [pyEndsWith_iff]
  exact map_suffix_iff Char.toLower s.toList pat.toList

/-- C6: for every non-empty source identifier, the raster-tag variant's
relevance predicate holds exactly for identifiers ending
case-insensitively in ".tif" or ".tiff", the scientific-container
variant's exactly for ".nc" or ".nc4", and an identifier with any other
suffix matches neither variant. -/
theorem is_relevant_suffix_iff (s : String) (hs : s ≠ "") :
    (GeoTiffImporter.is_relevant (some s) none = some true ↔
      (endsWithCaseInsensitive s ".tif" ∨ endsWithCaseInsensitive s ".tiff")) ∧
    (GoesRPUGImporter.is_relevant (some s) none = some true ↔
      (endsWithCaseInsensitive s ".nc" ∨ endsWithCaseInsensitive s ".nc4")) ∧
    (¬(endsWithCaseInsensitive s ".tif" ∨ endsWithCaseInsensitive s ".tiff" ∨
        endsWithCaseInsensitive s ".nc" ∨ endsWithCaseInsensitive s ".nc4") →
      GeoTiffImporter.is_relevant (some s) none = some false ∧
      GoesRPUGImporter.is_relevant (some s) none = some false) := by
  have hsrc : sourceOf (some s) none = some s := by simp [sourceOf, hs]
  have hg : GeoTiffImporter.is_relevant (some s) none =
      some (pyLowerEndsWith s ".tif" || pyLowerEndsWith s ".tiff") := by
    simp [GeoTiffImporter.is_relevant, hsrc]
  have hp : GoesRPUGImporter.is_relevant (some s) none =
      some (pyLowerEndsWith s ".nc" || pyLowerEndsWith s ".nc4") := by
    simp [GoesRPUGImporter.is_relevant, hsrc]
  refine ⟨?_, ?_, ?_⟩
  · rw [hg]
    simp only [Option.some.injEq, Bool.or_eq_true, pyLowerEndsWith_iff]
  · rw [hp]
    simp only [Option.some.injEq, Bool.or_eq_true, pyLowerEndsWith_iff]
  · intro hn
    push_neg at hn
    obtain ⟨h1, h2, h3, h4⟩ := hn
    have e1 : pyLowerEndsWith s ".tif" = false :=
      Bool.eq_false_iff.mpr fun hb => h1 ((pyLowerEndsWith_iff _ _).mp hb)
    have e2 : pyLowerEndsWith s ".tiff" = false :=
      Bool.eq_false_iff.mpr fun hb => h2 ((pyLowerEndsWith_iff _ _).mp hb)
    have e3 : pyLowerEndsWith s ".nc" = false :=
      Bool.eq_false_iff.mpr fun hb => h3 ((pyLowerEndsWith_iff _ _).mp hb)
    have e4 : pyLowerEndsWith s ".nc4" = false :=
      Bool.eq_false_iff.mpr fun hb => h4 ((pyLowerEndsWith_iff _ _).mp hb)
    rw [hg, hp, e1, e2, e3, e4]
    exact ⟨rfl, rfl⟩

/-- Witness for C6: an identifier with an unrecognized suffix matches
neither variant. -/
theorem is_relevant_suffix_iff_witness :
    GeoTiffImporter.is_relevant (some "x.dat") none = some false ∧
    GoesRPUGImporter.is_relevant (some "x.dat") none = some false := by
  refine (is_relevant_suffix_iff "x.dat" (by decide)).2.2 ?_
  intro hc
  have hfb : ∀ pat : String, pyLowerEndsWith "x.dat" pat = false →
      ¬endsWithCaseInsensitive "x.dat" pat := by
    intro pat hf hci
    have hb := (pyLowerEndsWith_iff "x.dat" pat).mpr hci
    rw [hf] at hb
    exact Bool.false_ne_true hb
  rcases hc with h | h | h | h
  · exact hfb ".tif" (by decide) h
  · exact hfb ".tiff" (by decide) h
  · exact hfb ".nc" (by decide) h
  · exact hfb ".nc4" (by decide) h

/-- Pointwise form of a dictionary write. -/
theorem updateKey_apply (r : Record) (key : Key) (v : Value) (k' : Key) :
    updateKey r key v k' = if k' = key then some v else r k' := rfl

/-- Applying a branching record to a key distributes over the branch. -/
theorem apply_ite_record (c : Prop) [Decidable c] (a b : Record) (k : Key) :
    (if c then a else b) k = if c then a k else b k := by
  split <;> rfl

/-- A write to a key other than the band key does not change the band. -/
theorem getBand_updateKey_ne (r : Record) (key : Key) (v : Value)
    (h : Key.k INFO.BAND ≠ key) : getBand (updateKey r key v) = getBand r := by
  unfold getBand
  rw [updateKey_apply, if_neg h]

/-- Every guidebook the registry can resolve is `ABI_AHI_Guidebook`. -/
theorem gb_eq (r : Record) (gb : Guidebook) (h : get_guidebook_class r = some gb) :
    gb = abiAhiGuidebook := by
  unfold get_guidebook_class at h
  split at h
  · rename_i p _
    cases p <;> simp_all [GUIDEBOOKS]
  · exact absurd h (by simp)

/-- Guidebook resolution only reads the platform key. -/
theorem get_guidebook_class_congr (r₁ r₂ : Record)
    (h : r₁ (Key.k INFO.PLATFORM) = r₂ (Key.k INFO.PLATFORM)) :
    get_guidebook_class r₁ = get_guidebook_class r₂ := by
  unfold get_guidebook_class
  rw [h]

/-- With the guidebook resolved, enrichment computes `enrichChain`. -/
theorem generate_eq_enrichChain (r : Record)
    (h : get_guidebook_class r = some abiAhiGuidebook) :
    generate_guidebook_metadata r = some (enrichChain r) := by
  unfold generate_guidebook_metadata
  rw [h]
  rfl

/-- A successful enrichment means the guidebook resolved and the result
is the enrichment chain. -/
theorem generate_some_elim (r r' : Record)
    (h : generate_guidebook_metadata r = some r') :
    get_guidebook_class r = some abiAhiGuidebook ∧ r' = enrichChain r := by
  cases hg : get_guidebook_class r with
  | none =>
    unfold generate_guidebook_metadata at h
    rw [hg] at h
    exact absurd h (by simp)
  | some gb =>
    have hgb : gb = abiAhiGuidebook := gb_eq r gb hg
    subst hgb
    rw [generate_eq_enrichChain r hg] at h
    exact ⟨rfl, (Option.some.inj h).symm⟩

/-- The enrichment chain leaves every key it does not write unchanged. -/
theorem enrichChain_apply_other (r : Record) (k : Key)
    (h1 : k ≠ Key.k INFO.STANDARD_NAME) (h2 : k ≠ Key.k INFO.COLORMAP)
    (h3 : k ≠ Key.k INFO.CLIM) (h4 : k ≠ Key.k INFO.DISPLAY_TIME)
    (h5 : k ≠ Key.k INFO.DISPLAY_NAME) :
    enrichChain r k = r k := by
  simp [enrichChain, apply_ite_record, updateKey_apply, h1, h2, h3, h4, h5]

/-- The enrichment chain preserves the band. -/
theorem enrichChain_getBand (r : Record) : getBand (enrichChain r) = getBand r := by
  unfold getBand
  rw [enrichChain_apply_other r _ (by decide) (by decide) (by decide) (by decide) (by decide)]

/-- The standard name after enrichment. -/
theorem enrichChain_std (r : Record) :
    enrichChain r (Key.k INFO.STANDARD_NAME) =
      some (Value.s (stdNameFor (getBand r))) := by
  simp [enrichChain, apply_ite_record, updateKey_apply]

/-- The colormap after enrichment. -/
theorem enrichChain_cm (r : Record) :
    enrichChain r (Key.k INFO.COLORMAP) = some (Value.s (cmapFor (getBand r))) := by
  simp [enrichChain, apply_ite_record, updateKey_apply, getBand_updateKey_ne]

/-- The color limits after enrichment. -/
theorem enrichChain_clim (r : Record) :
    enrichChain r (Key.k INFO.CLIM) = some (climFor (getBand r)) := by
  simp [enrichChain, apply_ite_record, updateKey_apply, getBand_updateKey_ne]

/-- The display time is present after enrichment. -/
theorem enrichChain_dt (r : Record) :
    enrichChain r (Key.k INFO.DISPLAY_TIME) ≠ none := by
  simp [enrichChain, apply_ite_record, updateKey_apply]
  split
  · simp
  · simp_all

/-- The display name is present after enrichment. -/
theorem enrichChain_dn (r : Record) :
    enrichChain r (Key.k INFO.DISPLAY_NAME) ≠ none := by
  simp [enrichChain, apply_ite_record, updateKey_apply]
  split
  · simp
  · simp_all

/-- A record already holding its enrichment values is a fixed point of
the enrichment chain. -/
theorem enrichChain_fixed (e : Record)
    (h1 : e (Key.k INFO.STANDARD_NAME) = some (Value.s (stdNameFor (getBand e))))
    (h2 : e (Key.k INFO.COLORMAP) = some (Value.s (cmapFor (getBand e))))
    (h3 : e (Key.k INFO.CLIM) = some (climFor (getBand e)))
    (h4 : e (Key.k INFO.DISPLAY_TIME) ≠ none)
    (h5 : e (Key.k INFO.DISPLAY_NAME) ≠ none) :
    enrichChain e = e := by
  simp only [enrichChain]
  rw [updateKey_self _ _ _ h1, updateKey_self _ _ _ h2, updateKey_self _ _ _ h3,
    if_neg h4, if_neg h5]

/-- The enrichment chain is idempotent. -/
theorem enrichChain_idem (r : Record) : enrichChain (enrichChain r) = enrichChain r := by
  have hb := enrichChain_getBand r
  refine enrichChain_fixed (enrichChain r) ?_ ?_ ?_ (enrichChain_dt r) (enrichChain_dn r)
  · rw [hb]; exact enrichChain_std r
  · rw [hb]; exact enrichChain_cm r
  · rw [hb]; exact enrichChain_clim r

/-- C7: guidebook enrichment is idempotent — re-enriching an already
enriched record (one whose platform resolved to a guidebook) returns it
unchanged. -/
theorem generate_guidebook_metadata_idempotent (r r' : Record)
    (h : generate_guidebook_metadata r = some r') :
    generate_guidebook_metadata r' = some r' := by
  obtain ⟨hg, hr'⟩ := generate_some_elim r r' h
  subst hr'
  have hplat : enrichChain r (Key.k INFO.PLATFORM) = r (Key.k INFO.PLATFORM) :=
    enrichChain_apply_other r _ (by decide) (by decide) (by decide) (by decide) (by decide)
  have hg' : get_guidebook_class (enrichChain r) = some abiAhiGuidebook := by
    rw [get_guidebook_class_congr (enrichChain r) r hplat]
    exact hg
  rw [generate_eq_enrichChain (enrichChain r) hg', enrichChain_idem r]

/-- Witness for C7: enriching a record that carries a resolvable
platform and then enriching the result again changes nothing. -/
theorem generate_guidebook_metadata_idempotent_witness :
    generate_guidebook_metadata c7r1 = some c7r1 :=
  generate_guidebook_metadata_idempotent c7r0 c7r1 rfl
